import Mathlib

/-!
# Statup command line layer (`cmd/cli.go`)

A shallow embedding of `catchCLI`, `RunOnce`, `HelpEcho` and
`checkGithubUpdates`.

* Go strings are byte sequences, so `GoString` is a list of bytes and a source
  literal `"abc"` is written `go "abc"` (its UTF-8 bytes).
* A Go `error` is `Option GoError`, `none` being `nil`.
* Everything `cli.go` calls but does not define (the `utils`, `source`,
  `handlers`, `plugin`, `core`, `godotenv`, `net/http`, `ioutil` and
  `encoding/json` functions, and the package variables `VERSION`, `COMMIT`,
  `ipAddress`, `port`) is a field of `Env`: the value that call returns in the
  run under study.  Every such call is assumed to return.
* A run produces the ordered list of the calls it made and of the text it
  wrote with `fmt` (`Event`), and either a returned value or a run-time panic.
-/

namespace Statup

/-- A Go string: a sequence of bytes. -/
abbrev GoString := List UInt8

/-- The bytes of a source string literal. -/
def go (s : String) : GoString := s.toUTF8.data.toList

/-- A non-nil Go `error` value, by its message. -/
structure GoError where
  text : GoString
deriving DecidableEq

/-- Go `errors.New`. -/
def errors.New (text : GoString) : GoError := ⟨text⟩

/-- Run-time panics raised by an index or slice expression. -/
inductive Panic where
  | indexOutOfRange (index length : Nat)
  | sliceBoundsOutOfRange (low length : Nat)
deriving DecidableEq

/-- Go `time.Time`, by its `wall` and `ext` words. -/
structure Time where
  wall : Nat
  ext : Int
deriving DecidableEq

/-- Source type `gitAuthor`. -/
structure gitAuthor where
  Login : GoString
  ID : Int
  NodeID : GoString
  AvatarURL : GoString
  GravatarID : GoString
  URL : GoString
  HTMLURL : GoString
  FollowersURL : GoString
  FollowingURL : GoString
  GistsURL : GoString
  StarredURL : GoString
  SubscriptionsURL : GoString
  OrganizationsURL : GoString
  ReposURL : GoString
  EventsURL : GoString
  ReceivedEventsURL : GoString
  Type_ : GoString
  SiteAdmin : Bool
deriving DecidableEq

/-- Source type `gitUploader`. -/
structure gitUploader where
  Login : GoString
  ID : Int
  NodeID : GoString
  AvatarURL : GoString
  GravatarID : GoString
  URL : GoString
  HTMLURL : GoString
  FollowersURL : GoString
  FollowingURL : GoString
  GistsURL : GoString
  StarredURL : GoString
  SubscriptionsURL : GoString
  OrganizationsURL : GoString
  ReposURL : GoString
  EventsURL : GoString
  ReceivedEventsURL : GoString
  Type_ : GoString
  SiteAdmin : Bool
deriving DecidableEq

/-- Source type `gitAssets`. -/
structure gitAssets where
  URL : GoString
  ID : Int
  NodeID : GoString
  Name : GoString
  Label : GoString
  Uploader : gitUploader
  ContentType : GoString
  State : GoString
  Size : Int
  DownloadCount : Int
  CreatedAt : Time
  UpdatedAt : Time
  BrowserDownloadURL : GoString
deriving DecidableEq

/-- Source type `githubResponse`. -/
structure githubResponse where
  URL : GoString
  AssetsURL : GoString
  UploadURL : GoString
  HTMLURL : GoString
  ID : Int
  NodeID : GoString
  TagName : GoString
  TargetCommitish : GoString
  Name : GoString
  Draft : Bool
  Author : gitAuthor
  Prerelease : Bool
  CreatedAt : Time
  PublishedAt : Time
  Assets : List gitAssets
  TarballURL : GoString
  ZipballURL : GoString
  Body : GoString
deriving DecidableEq

/-- The zero value `gitAuthor{}`. -/
def gitAuthor.zero : gitAuthor :=
  ⟨[], 0, [], [], [], [], [], [], [], [], [], [], [], [], [], [], [], false⟩

/-- The zero value `githubResponse{}`. -/
def githubResponse.zero : githubResponse :=
  ⟨[], [], [], [], 0, [], [], [], [], false, gitAuthor.zero, false, ⟨0, 0⟩, ⟨0, 0⟩, [],
    [], [], []⟩

/-- A value of a type declared in package `core` (configuration, core record,
service), by an identifier. -/
abbrev Ref := Nat

/-- The fields of the record returned by `out.Select()` that `RunOnce` prints. -/
structure ServiceFields where
  Name : GoString
  Domain : GoString
  Latency : Float
  Online : Bool

/-- The calls a run makes, with their arguments, and the text it writes. -/
inductive Event where
  | InitLogs
  | Assets
  | loadDotEnvs
  | DesktopInit (ip : GoString) (port : Int)
  | stdout (text : GoString)
  | Log (level : Int) (msg : GoString)
  | LogErr (level : Int) (err : GoError)
  | CreateAllAssets (dir : GoString)
  | CompileSASS (dir : GoString)
  | httpGet (url : GoString)
  | ReadAll
  | BodyClose
  | LoadPlugins
  | LoadConfigFile (dir : GoString)
  | ExportIndexHTML
  | SaveFile (path : GoString) (data : List UInt8)
  | godotenvRead (path : GoString)
  | Connect (cfg : Ref) (retry : Bool) (dir : GoString)
  | SelectCore
  | SelectAllServices (core : Ref) (start : Bool)
  | Select (service : Ref)
  | Check (service : Ref) (record : Bool)
deriving DecidableEq

/-- What the code outside `cli.go` returns in the run under study. -/
structure Env where
  /-- package variable `VERSION` -/
  VERSION : GoString
  /-- package variable `COMMIT` -/
  COMMIT : GoString
  /-- package variable `ipAddress` -/
  ipAddress : GoString
  /-- package variable `port` -/
  port : Int
  /-- package variable `utils.Directory`, not reassigned during the run -/
  Directory : GoString
  /-- error returned by `source.CreateAllAssets(dir)` -/
  CreateAllAssets : Option GoError
  /-- error returned by `source.CompileSASS(dir)` -/
  CompileSASS : Option GoError
  /-- error returned by `http.Get` -/
  httpGet : Option GoError
  /-- pair `(contents, err)` returned by `ioutil.ReadAll(response.Body)` -/
  ReadAll : List UInt8 × Option GoError
  /-- call `json.Unmarshal(contents, &gitResp)`: the struct afterwards, and the error -/
  jsonUnmarshal : List UInt8 → githubResponse → githubResponse × Option GoError
  /-- pair `(config, err)` returned by `core.LoadConfigFile` -/
  LoadConfigFile : Ref × Option GoError
  /-- string returned by `core.ExportIndexHTML()` -/
  ExportIndexHTML : GoString
  /-- error returned by `utils.SaveFile(path, data)` -/
  SaveFile : GoString → List UInt8 → Option GoError
  /-- pair `(envs, err)` returned by `godotenv.Read(".env")`; the map is given by its
  pairs in the order the `range` loop visits them -/
  godotenvRead : List (GoString × GoString) × Option GoError
  /-- error returned by `core.Configs.Connect(false, utils.Directory)` -/
  Connect : Option GoError
  /-- pair `(core, err)` returned by `core.SelectCore()` -/
  SelectCore : Ref × Option GoError
  /-- error returned by `core.CoreApp.SelectAllServices(true)` -/
  SelectAllServices : Option GoError
  /-- slice `core.CoreApp.Services` when the loop of `RunOnce` starts: the services
  that were loaded, none or some of them after a failed setup step -/
  Services : List Ref
  /-- fields of `out.Select()` as read by the `Printf` that follows `out.Check(true)` -/
  Select : Ref → ServiceFields
  /-- text `fmt` writes for a `float64` under the verb `%0.0f` -/
  fmtFloat0 : Float → GoString

/-- A run: the events so far, and a value or the panic that stopped it. -/
structure Run (α : Type) where
  trace : List Event
  result : Except Panic α

/-- A run that makes no call and returns `a`. -/
def Run.pure {α : Type} (a : α) : Run α := ⟨[], .ok a⟩

/-- Sequencing: a panic stops the run, keeping the events made before it. -/
def Run.bind {α β : Type} (m : Run α) (f : α → Run β) : Run β :=
  match m.result with
  | .error p => ⟨m.trace, .error p⟩
  | .ok a => ⟨m.trace ++ (f a).trace, (f a).result⟩

instance : Monad Run where
  pure := Run.pure
  bind := Run.bind

/-- One call or one write. -/
def emit (e : Event) : Run Unit := ⟨[e], .ok ()⟩

/-- A run-time panic. -/
def raise {α : Type} (p : Panic) : Run α := ⟨[], .error p⟩

/-- The index expression `xs[i]`. -/
def index {α : Type} (xs : List α) (i : Nat) : Run α :=
  match xs.get? i with
  | some x => pure x
  | none => raise (.indexOutOfRange i xs.length)

/-- The slice expression `s[lo:]` on a string. -/
def sliceFrom (s : GoString) (lo : Nat) : Run GoString :=
  if lo ≤ s.length then pure (s.drop lo) else raise (.sliceBoundsOutOfRange lo s.length)

/-- Go `fmt.Printf`, given the text the format produces. -/
def fmt.Printf (text : GoString) : Run Unit := emit (.stdout text)

/-- Go `fmt.Println` of one string. -/
def fmt.Println (s : GoString) : Run Unit := emit (.stdout (s ++ go "\n"))

/-- Text of a `bool` under the verb `%v`. -/
def fmtBool (b : Bool) : GoString := if b then go "true" else go "false"

/-- The text written to standard output by the `fmt` calls of a run, in order. -/
def stdoutText : List Event → GoString
  | [] => []
  | .stdout t :: es => t ++ stdoutText es
  | _ :: es => stdoutText es

/-- Source function `checkGithubUpdates`. -/
def checkGithubUpdates (env : Env) : Run (githubResponse × Option GoError) := do
  let gitResp := githubResponse.zero
  emit (.httpGet (go "https://api.github.com/repos/hunterlong/statup/releases/latest"))
  match env.httpGet with
  | some err => pure (githubResponse.zero, some err)
  | none => do
    -- defer response.Body.Close()
    emit .ReadAll
    match env.ReadAll.2 with
    | some err => do
      emit .BodyClose
      pure (githubResponse.zero, some err)
    | none => do
      let out := env.jsonUnmarshal env.ReadAll.1 gitResp
      emit .BodyClose
      pure out

/-- Source function `HelpEcho`. -/
def HelpEcho (env : Env) : Run Unit := do
  fmt.Printf (go "Statup v" ++ env.VERSION ++ go " - Statup.io\n")
  fmt.Printf (go "A simple Application Status Monitor that is opensource and lightweight.\n")
  fmt.Printf (go "Commands:\n")
  fmt.Println (go "     statup                    - Main command to run Statup server")
  fmt.Println (go "     statup version            - Returns the current version of Statup")
  fmt.Println (go "     statup run                - Check all services 1 time and then quit")
  fmt.Println (go "     statup test plugins       - Test all plugins for required information")
  fmt.Println (go "     statup assets             - Dump all assets used locally to be edited.")
  fmt.Println (go "     statup sass               - Compile .scss files into the css directory")
  fmt.Println (go "     statup env                - Show all environment variables being used for Statup")
  fmt.Println (go "     statup export             - Exports the index page as a static HTML for pushing")
  fmt.Println (go "     statup update             - Attempts to update to the latest version")
  fmt.Println (go "     statup help               - Shows the user basic information about Statup")
  fmt.Printf (go "Flags:\n")
  fmt.Println (go "     -ip 127.0.0.1             - Run HTTP server on specific IP address (default: localhost)")
  fmt.Println (go "     -port 8080                - Run HTTP server on Port (default: 8080)")
  fmt.Println (go "Give Statup a Star at https://github.com/hunterlong/statup")

/-- The line `RunOnce` prints for one service:
`"    Service %v | URL: %v | Latency: %0.0fms | Online: %v\n"`
with `service.Name, service.Domain, (service.Latency * 1000), service.Online`. -/
def serviceLine (env : Env) (service : ServiceFields) : GoString :=
  go "    Service " ++ service.Name ++ go " | URL: " ++ service.Domain ++ go " | Latency: "
    ++ env.fmtFloat0 (service.Latency * 1000) ++ go "ms | Online: " ++ fmtBool service.Online
    ++ go "\n"

/-- The loop `for _, out := range core.CoreApp.Services` of `RunOnce`. -/
def RunOnce.loop (env : Env) : List Ref → Run Unit
  | [] => pure ()
  | out :: rest => do
    emit (.Select out)
    let service := env.Select out
    emit (.Check out true)
    fmt.Printf (serviceLine env service)
    RunOnce.loop env rest

/-- Source function `RunOnce`. -/
def RunOnce (env : Env) : Run Unit := do
  emit (.LoadConfigFile env.Directory)
  match env.LoadConfigFile.2 with
  | some _ => emit (.Log 4 (go "config.yml file not found"))
  | none => pure ()
  emit (.Connect env.LoadConfigFile.1 false env.Directory)
  match env.Connect with
  | some err => emit (.LogErr 4 err)
  | none => pure ()
  emit .SelectCore
  match env.SelectCore.2 with
  | some _ => fmt.Println (go "Core database was not found, Statup is not setup yet.")
  | none => pure ()
  emit (.SelectAllServices env.SelectCore.1 true)
  match env.SelectAllServices with
  | some err => emit (.LogErr 4 err)
  | none => pure ()
  RunOnce.loop env env.Services

/-- The loop `for k, e := range envs` of the `env` branch. -/
def printEnvs : List (GoString × GoString) → Run Unit
  | [] => pure ()
  | (k, e) :: rest => do
    fmt.Printf (k ++ go "=" ++ e ++ go "\n")
    printEnvs rest

/-- How a `case` of the `switch` in `catchCLI` ends: with a `return`, or by
reaching the end of the `switch`. -/
inductive Flow where
  | ret (err : Option GoError)
  | endOfSwitch
deriving DecidableEq

/-- Body of `case "app"`. -/
def catchCLI.caseApp (env : Env) : Run Flow := do
  emit (.DesktopInit env.ipAddress env.port)
  pure .endOfSwitch

/-- Body of `case "version"`. -/
def catchCLI.caseVersion (env : Env) : Run Flow := do
  if env.COMMIT ≠ go "" then
    fmt.Printf (go "Statup v" ++ env.VERSION ++ go " (" ++ env.COMMIT ++ go ")\n")
  else
    fmt.Printf (go "Statup v" ++ env.VERSION ++ go "\n")
  pure (.ret (some (errors.New (go "end"))))

/-- Body of `case "assets"`. -/
def catchCLI.caseAssets (env : Env) (dir : GoString) : Run Flow := do
  emit (.CreateAllAssets dir)
  let err := env.CreateAllAssets
  match err with
  | some e => pure (.ret (some e))
  | none => pure (.ret (some (errors.New (go "end"))))

/-- Body of `case "sass"`. -/
def catchCLI.caseSass (env : Env) (dir : GoString) : Run Flow := do
  emit (.CompileSASS dir)
  let err := env.CompileSASS
  match err with
  | none => pure (.ret (some (errors.New (go "end"))))
  | some e => pure (.ret (some e))

/-- Body of `case "update"`. -/
def catchCLI.caseUpdate (env : Env) : Run Flow := do
  let r ← checkGithubUpdates env
  let gitCurrent := r.1
  let err := r.2
  if err ≠ none then pure (.ret none)
  else do
    fmt.Printf (go "Statup Version: v" ++ env.VERSION ++ go "\nLatest Version: "
      ++ gitCurrent.TagName ++ go "\n")
    let tag ← sliceFrom gitCurrent.TagName 1
    if env.VERSION ≠ tag then do
      let tag ← sliceFrom gitCurrent.TagName 1
      fmt.Printf (go "You don't have the latest version v" ++ tag
        ++ go "!\nDownload the latest release at: https://github.com/hunterlong/statup\n")
    else
      fmt.Printf (go "You have the latest version of Statup!\n")
    if err = none then pure (.ret (some (errors.New (go "end"))))
    else pure (.ret none)

/-- Body of `case "test"`. -/
def catchCLI.caseTest (args : List GoString) : Run Flow := do
  let cmd ← index args 1
  if cmd = go "plugins" then emit .LoadPlugins else pure ()
  pure (.ret (some (errors.New (go "end"))))

/-- Body of `case "export"`. -/
def catchCLI.caseExport (env : Env) (dir : GoString) : Run Flow := do
  fmt.Printf (go "Statup v" ++ env.VERSION ++ go " Exporting Static 'index.html' page...\n")
  emit (.LoadConfigFile dir)
  let err := env.LoadConfigFile.2
  match err with
  | some e => do
    emit (.Log 4 (go "config.yml file not found"))
    pure (.ret (some e))
  | none => do
    emit .ExportIndexHTML
    let indexSource := env.ExportIndexHTML
    emit (.SaveFile (go "./index.html") indexSource)
    let err := env.SaveFile (go "./index.html") indexSource
    match err with
    | some e => do
      emit (.LogErr 4 e)
      pure (.ret (some e))
    | none => do
      emit (.Log 1 (go "Exported Statup index page: 'index.html'"))
      pure .endOfSwitch

/-- Body of `case "help"`. -/
def catchCLI.caseHelp (env : Env) : Run Flow := do
  HelpEcho env
  pure (.ret (some (errors.New (go "end"))))

/-- Body of `case "run"`. -/
def catchCLI.caseRun (env : Env) : Run Flow := do
  emit (.Log 1 (go "Running 1 time and saving to database..."))
  RunOnce env
  fmt.Println (go "Check is complete.")
  pure (.ret (some (errors.New (go "end"))))

/-- Body of `case "env"`. -/
def catchCLI.caseEnv (env : Env) : Run Flow := do
  fmt.Println (go "Statup Environment Variable")
  emit (.godotenvRead (go ".env"))
  let envs := env.godotenvRead.1
  let err := env.godotenvRead.2
  match err with
  | some e => do
    emit (.Log 4 (go "No .env file found in current directory."))
    pure (.ret (some e))
  | none => do
    printEnvs envs
    pure .endOfSwitch

/-- The statement `switch args[0]` of `catchCLI`, once `args[0]` is evaluated. -/
def catchCLI.switch (env : Env) (dir : GoString) (args : List GoString) (arg0 : GoString) :
    Run Flow :=
  if arg0 = go "app" then catchCLI.caseApp env
  else if arg0 = go "version" then catchCLI.caseVersion env
  else if arg0 = go "assets" then catchCLI.caseAssets env dir
  else if arg0 = go "sass" then catchCLI.caseSass env dir
  else if arg0 = go "update" then catchCLI.caseUpdate env
  else if arg0 = go "test" then catchCLI.caseTest args
  else if arg0 = go "export" then catchCLI.caseExport env dir
  else if arg0 = go "help" then catchCLI.caseHelp env
  else if arg0 = go "run" then catchCLI.caseRun env
  else if arg0 = go "env" then catchCLI.caseEnv env
  else pure (.ret none)

/-- Source function `catchCLI`. -/
def catchCLI (env : Env) (args : List GoString) : Run (Option GoError) := do
  let dir := env.Directory
  emit .InitLogs
  emit .Assets
  emit .loadDotEnvs
  let arg0 ← index args 0
  let flow ← catchCLI.switch env dir args arg0
  match flow with
  | .ret err => pure err
  | .endOfSwitch => pure (some (errors.New (go "end")))

/-- The result `errors.New("end")`, by which `catchCLI` tells its caller that
the command was handled and the program stops. -/
def endError : GoError := errors.New (go "end")

/-- The command tokens `catchCLI` has a `case` for, in source order. -/
def commandTokens : List GoString :=
  [go "app", go "version", go "assets", go "sass", go "update", go "test", go "export",
    go "help", go "run", go "env"]

/-- The three bootstrap calls every run of `catchCLI` starts with. -/
def bootstrap : List Event := [.InitLogs, .Assets, .loadDotEnvs]

/-- An environment in which every call succeeds: no services, an empty dotenv
file, and a release tagged `v1.2.0` for a running version `1.2.0`. -/
def sampleEnv : Env where
  VERSION := go "1.2.0"
  COMMIT := go ""
  ipAddress := go "localhost"
  port := 8080
  Directory := go "."
  CreateAllAssets := none
  CompileSASS := none
  httpGet := none
  ReadAll := ([], none)
  jsonUnmarshal := fun _ r => ({ r with TagName := go "v1.2.0" }, none)
  LoadConfigFile := (0, none)
  ExportIndexHTML := go "<html></html>"
  SaveFile := fun _ _ => none
  godotenvRead := ([], none)
  Connect := none
  SelectCore := (0, none)
  SelectAllServices := none
  Services := []
  Select := fun _ => ⟨[], [], 0, false⟩
  fmtFloat0 := fun _ => go "0"

/-- The environment `sampleEnv`, except that the fetched body does not decode. -/
def decodeFailEnv : Env :=
  { sampleEnv with
    jsonUnmarshal := fun _ r => (r, some (errors.New (go "unexpected end of JSON input"))) }

/-- The environment `sampleEnv`, except that the release is tagged `v1.3.0`. -/
def newerEnv : Env :=
  { sampleEnv with jsonUnmarshal := fun _ r => ({ r with TagName := go "v1.3.0" }, none) }

/-- The environment `sampleEnv`, except that the dotenv file holds `A=1`. -/
def dotenvEnv : Env :=
  { sampleEnv with godotenvRead := ([(go "A", go "1")], none) }

/-- The environment `sampleEnv`, except that the body decodes to a release
without `tag_name`. -/
def emptyTagEnv : Env :=
  { sampleEnv with jsonUnmarshal := fun _ r => (r, none) }

/-- The calls to `utils.SaveFile`. -/
def isSaveFile : Event → Bool
  | .SaveFile _ _ => true
  | _ => false

/-- The calls to the four setup steps of `RunOnce`. -/
def isSetupCall : Event → Bool
  | .LoadConfigFile _ => true
  | .Connect _ _ _ => true
  | .SelectCore => true
  | .SelectAllServices _ _ => true
  | _ => false

/-- The events of the four setup steps of `RunOnce`, each followed by its
diagnostic when the step returned an error. -/
def setupEvents (env : Env) : List Event :=
  [.LoadConfigFile env.Directory]
    ++ (match env.LoadConfigFile.2 with
      | some _ => [.Log 4 (go "config.yml file not found")]
      | none => [])
    ++ [.Connect env.LoadConfigFile.1 false env.Directory]
    ++ (match env.Connect with
      | some e => [.LogErr 4 e]
      | none => [])
    ++ [.SelectCore]
    ++ (match env.SelectCore.2 with
      | some _ => [.stdout (go "Core database was not found, Statup is not setup yet." ++ go "\n")]
      | none => [])
    ++ [.SelectAllServices env.SelectCore.1 true]
    ++ (match env.SelectAllServices with
      | some e => [.LogErr 4 e]
      | none => [])

/-- The calls to the health check of a service. -/
def isCheck : Event → Bool
  | .Check _ _ => true
  | _ => false

/-- The events of one turn of the service loop of `RunOnce`. -/
def serviceEvents (env : Env) (out : Ref) : List Event :=
  [.Select out, .Check out true, .stdout (serviceLine env (env.Select out))]

/-! ## Running `catchCLI` -/

/-- What `catchCLI` returns for the way its `switch` ended. -/
def afterSwitch : Except Panic Flow → Except Panic (Option GoError)
  | .ok (.ret err) => .ok err
  | .ok .endOfSwitch => .ok (some endError)
  | .error p => .error p

theorem run_ext_iff {α : Type} (a b : Run α) :
    a = b ↔ a.trace = b.trace ∧ a.result = b.result := by
  cases a; cases b; simp

@[simp]
theorem run_trace_pure {α : Type} (a : α) : (pure a : Run α).trace = [] := rfl

@[simp]
theorem run_result_pure {α : Type} (a : α) : (pure a : Run α).result = .ok a := rfl

@[simp]
theorem emit_trace (e : Event) : (emit e).trace = [e] := rfl

@[simp]
theorem emit_result (e : Event) : (emit e).result = .ok () := rfl

@[simp]
theorem printf_trace (t : GoString) : (fmt.Printf t).trace = [.stdout t] := rfl

@[simp]
theorem printf_result (t : GoString) : (fmt.Printf t).result = .ok () := rfl

@[simp]
theorem println_trace (t : GoString) : (fmt.Println t).trace = [.stdout (t ++ go "\n")] := rfl

@[simp]
theorem println_result (t : GoString) : (fmt.Println t).result = .ok () := rfl

@[simp]
theorem raise_trace {α : Type} (p : Panic) : (raise p : Run α).trace = [] := rfl

@[simp]
theorem raise_result {α : Type} (p : Panic) : (raise p : Run α).result = .error p := rfl

@[simp]
theorem run_trace_bind_emit {β : Type} (e : Event) (f : Unit → Run β) :
    (emit e >>= f).trace = e :: (f ()).trace := rfl

@[simp]
theorem run_result_bind_emit {β : Type} (e : Event) (f : Unit → Run β) :
    (emit e >>= f).result = (f ()).result := rfl

@[simp]
theorem run_trace_bind_printf {β : Type} (t : GoString) (f : Unit → Run β) :
    (fmt.Printf t >>= f).trace = .stdout t :: (f ()).trace := rfl

@[simp]
theorem run_result_bind_printf {β : Type} (t : GoString) (f : Unit → Run β) :
    (fmt.Printf t >>= f).result = (f ()).result := rfl

@[simp]
theorem run_trace_bind_println {β : Type} (t : GoString) (f : Unit → Run β) :
    (fmt.Println t >>= f).trace = .stdout (t ++ go "\n") :: (f ()).trace := rfl

@[simp]
theorem run_result_bind_println {β : Type} (t : GoString) (f : Unit → Run β) :
    (fmt.Println t >>= f).result = (f ()).result := rfl

@[simp]
theorem run_pure_bind {α β : Type} (a : α) (f : α → Run β) :
    (pure a >>= f) = f a := by
  show Run.bind (Run.pure a) f = f a
  simp [Run.bind, Run.pure]

@[simp]
theorem run_raise_bind {α β : Type} (p : Panic) (f : α → Run β) :
    (raise p >>= f) = raise p := rfl

theorem run_trace_bind {α β : Type} (m : Run α) (f : α → Run β) :
    (m >>= f).trace = m.trace ++
      (match m.result with
        | .ok a => (f a).trace
        | .error _ => []) := by
  rcases m with ⟨t, (p | a)⟩
  · show t = t ++ []
    simp
  · rfl

theorem run_result_bind {α β : Type} (m : Run α) (f : α → Run β) :
    (m >>= f).result =
      (match m.result with
        | .ok a => (f a).result
        | .error p => .error p) := by
  rcases m with ⟨t, (p | a)⟩ <;> rfl

@[simp]
theorem index_cons_zero {α : Type} (x : α) (xs : List α) :
    index (x :: xs) 0 = pure x := rfl

@[simp]
theorem index_cons_succ {α : Type} (x : α) (xs : List α) (i : Nat) :
    index (x :: xs) (i + 1) =
      (match xs.get? i with
        | some y => pure y
        | none => raise (.indexOutOfRange (i + 1) (xs.length + 1))) := rfl

@[simp]
theorem index_nil {α : Type} (i : Nat) :
    index ([] : List α) i = raise (.indexOutOfRange i 0) := rfl

@[simp]
theorem sliceFrom_cons_one (c : UInt8) (s : GoString) : sliceFrom (c :: s) 1 = pure s := by
  simp [sliceFrom]

@[simp]
theorem sliceFrom_nil_one : sliceFrom [] 1 = raise (.sliceBoundsOutOfRange 1 0) := by
  simp [sliceFrom]

theorem catchCLI_nil (env : Env) :
    catchCLI env [] = ⟨bootstrap, .error (.indexOutOfRange 0 0)⟩ := rfl

theorem catchCLI_cons (env : Env) (arg0 : GoString) (rest : List GoString) :
    catchCLI env (arg0 :: rest) =
      ⟨bootstrap ++ (catchCLI.switch env env.Directory (arg0 :: rest) arg0).trace,
        afterSwitch (catchCLI.switch env env.Directory (arg0 :: rest) arg0).result⟩ := by
  rw [run_ext_iff]
  simp only [catchCLI, run_trace_bind_emit, run_result_bind_emit, index_cons_zero,
    run_pure_bind]
  generalize catchCLI.switch env env.Directory (arg0 :: rest) arg0 = sw
  rcases sw with ⟨t, (p | (e | _))⟩ <;>
    simp [bootstrap, afterSwitch, endError, run_trace_bind, run_result_bind]

theorem switch_default (env : Env) (dir : GoString) (args : List GoString) (arg0 : GoString)
    (h : arg0 ∉ commandTokens) : catchCLI.switch env dir args arg0 = pure (.ret none) := by
  simp only [commandTokens, List.mem_cons, List.mem_singleton, List.not_mem_nil, or_false,
    not_or] at h
  obtain ⟨h1, h2, h3, h4, h5, h6, h7, h8, h9, h10⟩ := h
  simp only [catchCLI.switch, if_neg h1, if_neg h2, if_neg h3, if_neg h4, if_neg h5, if_neg h6,
    if_neg h7, if_neg h8, if_neg h9, if_neg h10]

/-! ## `checkGithubUpdates` and the `update` case -/

theorem checkGithubUpdates_get_failed (env : Env) (e : GoError) (hget : env.httpGet = some e) :
    checkGithubUpdates env =
      ⟨[.httpGet (go "https://api.github.com/repos/hunterlong/statup/releases/latest")],
        .ok (githubResponse.zero, some e)⟩ := by
  rw [run_ext_iff]
  simp [checkGithubUpdates, hget]

theorem checkGithubUpdates_read_failed (env : Env) (e : GoError) (hget : env.httpGet = none)
    (hread : env.ReadAll.2 = some e) :
    checkGithubUpdates env =
      ⟨[.httpGet (go "https://api.github.com/repos/hunterlong/statup/releases/latest"),
          .ReadAll, .BodyClose],
        .ok (githubResponse.zero, some e)⟩ := by
  rw [run_ext_iff]
  simp [checkGithubUpdates, hget, hread]

theorem checkGithubUpdates_decoded (env : Env) (hget : env.httpGet = none)
    (hread : env.ReadAll.2 = none) :
    checkGithubUpdates env =
      ⟨[.httpGet (go "https://api.github.com/repos/hunterlong/statup/releases/latest"),
          .ReadAll, .BodyClose],
        .ok (env.jsonUnmarshal env.ReadAll.1 githubResponse.zero)⟩ := by
  rw [run_ext_iff]
  simp [checkGithubUpdates, hget, hread]

theorem caseUpdate_fetch_failed (env : Env) (t : List Event) (r : githubResponse) (e : GoError)
    (h : checkGithubUpdates env = ⟨t, .ok (r, some e)⟩) :
    catchCLI.caseUpdate env = ⟨t, .ok (.ret none)⟩ := by
  rw [run_ext_iff]
  simp [catchCLI.caseUpdate, h, run_trace_bind, run_result_bind]

theorem caseUpdate_empty_tag (env : Env) (t : List Event) (r : githubResponse)
    (h : checkGithubUpdates env = ⟨t, .ok (r, none)⟩) (htag : r.TagName = []) :
    catchCLI.caseUpdate env =
      ⟨t ++ [.stdout (go "Statup Version: v" ++ env.VERSION ++ go "\nLatest Version: "
          ++ r.TagName ++ go "\n")],
        .error (.sliceBoundsOutOfRange 1 0)⟩ := by
  rw [run_ext_iff]
  simp [catchCLI.caseUpdate, h, run_trace_bind, run_result_bind, htag]

theorem caseUpdate_tag (env : Env) (t : List Event) (r : githubResponse) (c : UInt8)
    (s : GoString) (h : checkGithubUpdates env = ⟨t, .ok (r, none)⟩)
    (htag : r.TagName = c :: s) :
    catchCLI.caseUpdate env =
      ⟨t ++ [.stdout (go "Statup Version: v" ++ env.VERSION ++ go "\nLatest Version: "
          ++ r.TagName ++ go "\n"),
          .stdout (if env.VERSION = s then go "You have the latest version of Statup!\n"
            else go "You don't have the latest version v" ++ s
              ++ go "!\nDownload the latest release at: https://github.com/hunterlong/statup\n")],
        .ok (.ret (some (errors.New (go "end"))))⟩ := by
  rw [run_ext_iff]
  by_cases hv : env.VERSION = s <;>
    simp [catchCLI.caseUpdate, h, run_trace_bind, run_result_bind, htag, hv]

/-! ## The `switch`, token by token -/

theorem switch_app (env : Env) (dir : GoString) (args : List GoString) :
    catchCLI.switch env dir args (go "app") = catchCLI.caseApp env := rfl

theorem switch_version (env : Env) (dir : GoString) (args : List GoString) :
    catchCLI.switch env dir args (go "version") = catchCLI.caseVersion env := rfl

theorem switch_assets (env : Env) (dir : GoString) (args : List GoString) :
    catchCLI.switch env dir args (go "assets") = catchCLI.caseAssets env dir := rfl

theorem switch_sass (env : Env) (dir : GoString) (args : List GoString) :
    catchCLI.switch env dir args (go "sass") = catchCLI.caseSass env dir := rfl

theorem switch_update (env : Env) (dir : GoString) (args : List GoString) :
    catchCLI.switch env dir args (go "update") = catchCLI.caseUpdate env := rfl

theorem switch_test (env : Env) (dir : GoString) (args : List GoString) :
    catchCLI.switch env dir args (go "test") = catchCLI.caseTest args := rfl

theorem switch_export (env : Env) (dir : GoString) (args : List GoString) :
    catchCLI.switch env dir args (go "export") = catchCLI.caseExport env dir := rfl

theorem switch_help (env : Env) (dir : GoString) (args : List GoString) :
    catchCLI.switch env dir args (go "help") = catchCLI.caseHelp env := rfl

theorem switch_run (env : Env) (dir : GoString) (args : List GoString) :
    catchCLI.switch env dir args (go "run") = catchCLI.caseRun env := rfl

theorem switch_env (env : Env) (dir : GoString) (args : List GoString) :
    catchCLI.switch env dir args (go "env") = catchCLI.caseEnv env := rfl

/-! ## Unrecognised tokens -/

/-- C1: when the first argument is none of the ten command tokens (the empty
string included), `catchCLI` returns nil, the only calls it makes are the three
bootstrap calls, and it prints nothing. -/
theorem unrecognised_token_continues_to_server (env : Env) (arg0 : GoString)
    (rest : List GoString) (h : arg0 ∉ commandTokens) :
    (catchCLI env (arg0 :: rest)).result = .ok none ∧
      (catchCLI env (arg0 :: rest)).trace = bootstrap ∧
      stdoutText (catchCLI env (arg0 :: rest)).trace = [] := by
  rw [catchCLI_cons, switch_default env _ _ _ h]
  exact ⟨rfl, rfl, rfl⟩

theorem unrecognised_token_continues_to_server_witness :
    go "" ∉ commandTokens ∧ (catchCLI sampleEnv [go ""]).result = .ok none ∧
      (catchCLI sampleEnv [go ""]).trace = bootstrap :=
  ⟨by decide, (unrecognised_token_continues_to_server sampleEnv (go "") [] (by decide)).1,
    (unrecognised_token_continues_to_server sampleEnv (go "") [] (by decide)).2.1⟩

/-! ## The `update` command -/

theorem update_of_fetch (env : Env) (rest : List GoString) :
    catchCLI env (go "update" :: rest) =
      ⟨bootstrap ++ (catchCLI.caseUpdate env).trace,
        afterSwitch (catchCLI.caseUpdate env).result⟩ := by
  rw [catchCLI_cons, switch_update]

/-- C2, at a concrete input: the GET and the body read succeed and the body
does not decode; `catchCLI` returns nil, not the handled-and-stop result. -/
theorem update_decode_failure_returns_nil :
    decodeFailEnv.httpGet = none ∧ decodeFailEnv.ReadAll.2 = none ∧
      (decodeFailEnv.jsonUnmarshal decodeFailEnv.ReadAll.1 githubResponse.zero).2 ≠ none ∧
      (catchCLI decodeFailEnv [go "update"]).result = .ok none ∧
      (catchCLI decodeFailEnv [go "update"]).result ≠ .ok (some endError) := by
  refine ⟨rfl, rfl, by decide, rfl, ?_⟩
  intro h
  have h2 : (catchCLI decodeFailEnv [go "update"]).result = .ok none := rfl
  rw [h2] at h
  cases h

/-- C2, amended: for `update`, `catchCLI` returns nil when `checkGithubUpdates`
returned an error (the GET failed, the body read failed, or the body did not
decode), and returns the handled-and-stop result when it returned none and the
tag name is not empty, whether or not the versions compare equal. -/
theorem update_result (env : Env) (rest : List GoString) :
    ((env.httpGet ≠ none ∨ env.ReadAll.2 ≠ none ∨
        (env.jsonUnmarshal env.ReadAll.1 githubResponse.zero).2 ≠ none) →
      (catchCLI env (go "update" :: rest)).result = .ok none) ∧
    (env.httpGet = none → env.ReadAll.2 = none →
      (env.jsonUnmarshal env.ReadAll.1 githubResponse.zero).2 = none →
      (env.jsonUnmarshal env.ReadAll.1 githubResponse.zero).1.TagName ≠ [] →
      (catchCLI env (go "update" :: rest)).result = .ok (some endError)) := by
  rw [update_of_fetch]
  constructor
  · intro h
    cases hget : env.httpGet with
    | some e =>
      rw [caseUpdate_fetch_failed env _ _ e (checkGithubUpdates_get_failed env e hget)]
      rfl
    | none =>
      cases hread : env.ReadAll.2 with
      | some e =>
        rw [caseUpdate_fetch_failed env _ _ e (checkGithubUpdates_read_failed env e hget hread)]
        rfl
      | none =>
        cases hjson : env.jsonUnmarshal env.ReadAll.1 githubResponse.zero with
        | mk r err =>
          cases err with
          | none => simp [hget, hread, hjson] at h
          | some e =>
            have hf := checkGithubUpdates_decoded env hget hread
            rw [hjson] at hf
            rw [caseUpdate_fetch_failed env _ r e hf]
            rfl
  · intro hget hread hjson htag
    have hf := checkGithubUpdates_decoded env hget hread
    cases hr : env.jsonUnmarshal env.ReadAll.1 githubResponse.zero with
    | mk r err =>
      rw [hr] at hf hjson htag
      simp only at hjson htag
      subst hjson
      cases ht : r.TagName with
      | nil => exact absurd ht htag
      | cons c s =>
        rw [caseUpdate_tag env _ r c s hf ht]
        rfl

theorem update_result_witness :
    (catchCLI sampleEnv [go "update"]).result = .ok (some endError) ∧
      (catchCLI decodeFailEnv [go "update"]).result = .ok none :=
  ⟨(update_result sampleEnv []).2 rfl rfl rfl (by decide),
    (update_result decodeFailEnv []).1 (Or.inr (Or.inr (by decide)))⟩

theorem upToDate_ne_versions (x : GoString) :
    go "Statup Version: v" ++ x ≠ go "You have the latest version of Statup!\n" := by
  intro h
  have h0 : some (83 : UInt8) = some 89 := congrArg (fun l => l.get? 0) h
  cases h0

theorem upToDate_ne_different (x : GoString) :
    go "You don't have the latest version v" ++ x
      ≠ go "You have the latest version of Statup!\n" := by
  intro h
  have h0 : some (100 : UInt8) = some 104 := congrArg (fun l => l.get? 4) h
  cases h0

/-- C3: when the release is fetched and its tag name is `"v"` followed by `s`,
the slice `TagName[1:]` is exactly `s`; the `update` case prints the two version
lines and then the "latest version" line if `VERSION` equals `s`, else the
"don't have the latest version" line carrying `s`; the "latest version" line is
printed if and only if `VERSION = s`. -/
theorem update_compares_stripped_tag (env : Env) (rest : List GoString) (s : GoString)
    (r : githubResponse) (hget : env.httpGet = none) (hread : env.ReadAll.2 = none)
    (hjson : env.jsonUnmarshal env.ReadAll.1 githubResponse.zero = (r, none))
    (htag : r.TagName = go "v" ++ s) :
    sliceFrom r.TagName 1 = pure s ∧
      (catchCLI env (go "update" :: rest)).trace =
        bootstrap ++
          [.httpGet (go "https://api.github.com/repos/hunterlong/statup/releases/latest"),
            .ReadAll, .BodyClose,
            .stdout (go "Statup Version: v" ++ env.VERSION ++ go "\nLatest Version: "
              ++ (go "v" ++ s) ++ go "\n"),
            .stdout (if env.VERSION = s then go "You have the latest version of Statup!\n"
              else go "You don't have the latest version v" ++ s
                ++ go "!\nDownload the latest release at: https://github.com/hunterlong/statup\n")] ∧
      (Event.stdout (go "You have the latest version of Statup!\n")
          ∈ (catchCLI env (go "update" :: rest)).trace ↔ env.VERSION = s) := by
  have htag2 : r.TagName = 118 :: s := htag
  have hf := checkGithubUpdates_decoded env hget hread
  rw [hjson] at hf
  have htr : (catchCLI env (go "update" :: rest)).trace =
        bootstrap ++
          [.httpGet (go "https://api.github.com/repos/hunterlong/statup/releases/latest"),
            .ReadAll, .BodyClose,
            .stdout (go "Statup Version: v" ++ env.VERSION ++ go "\nLatest Version: "
              ++ (go "v" ++ s) ++ go "\n"),
            .stdout (if env.VERSION = s then go "You have the latest version of Statup!\n"
              else go "You don't have the latest version v" ++ s
                ++ go "!\nDownload the latest release at: https://github.com/hunterlong/statup\n")] := by
    rw [update_of_fetch, caseUpdate_tag env _ r 118 s hf htag2, htag]
    rfl
  refine ⟨?_, htr, ?_⟩
  · rw [htag2]
    exact sliceFrom_cons_one 118 s
  · rw [htr]
    by_cases hv : env.VERSION = s
    · simp [hv]
    · have h1 := upToDate_ne_versions (env.VERSION ++ go "\nLatest Version: " ++ (go "v" ++ s) ++ go "\n")
      have h2 := upToDate_ne_different (s ++
        go "!\nDownload the latest release at: https://github.com/hunterlong/statup\n")
      simp only [List.append_assoc] at h1 h2
      simp [hv, bootstrap, Ne.symm h1, Ne.symm h2]

theorem update_compares_stripped_tag_witness :
    (Event.stdout (go "You have the latest version of Statup!\n")
        ∈ (catchCLI sampleEnv [go "update"]).trace ↔ go "1.2.0" = go "1.2.0") ∧
      (Event.stdout (go "You have the latest version of Statup!\n")
        ∈ (catchCLI newerEnv [go "update"]).trace ↔ go "1.2.0" = go "1.3.0") :=
  ⟨(update_compares_stripped_tag sampleEnv [] (go "1.2.0")
      { githubResponse.zero with TagName := go "v1.2.0" } rfl rfl rfl (by decide)).2.2,
    (update_compares_stripped_tag newerEnv [] (go "1.3.0")
      { githubResponse.zero with TagName := go "v1.3.0" } rfl rfl rfl (by decide)).2.2⟩

/-- C4: `checkGithubUpdates` returns the GET error when the GET fails, the read
error when the body read fails, and the error of `json.Unmarshal` (with the
struct it filled) when both succeed; so it returns a nil error only when the
GET, the read and the decoding all succeeded. -/
theorem checkGithubUpdates_propagates_errors (env : Env) :
    (∀ e, env.httpGet = some e →
      (checkGithubUpdates env).result = .ok (githubResponse.zero, some e)) ∧
    (∀ e, env.httpGet = none → env.ReadAll.2 = some e →
      (checkGithubUpdates env).result = .ok (githubResponse.zero, some e)) ∧
    (env.httpGet = none → env.ReadAll.2 = none →
      (checkGithubUpdates env).result =
        .ok (env.jsonUnmarshal env.ReadAll.1 githubResponse.zero)) ∧
    (∀ r, (checkGithubUpdates env).result = .ok (r, none) →
      env.httpGet = none ∧ env.ReadAll.2 = none ∧
        env.jsonUnmarshal env.ReadAll.1 githubResponse.zero = (r, none)) := by
  refine ⟨?_, ?_, ?_, ?_⟩
  · intro e hget
    rw [checkGithubUpdates_get_failed env e hget]
  · intro e hget hread
    rw [checkGithubUpdates_read_failed env e hget hread]
  · intro hget hread
    rw [checkGithubUpdates_decoded env hget hread]
  · intro r h
    cases hget : env.httpGet with
    | some e =>
      rw [checkGithubUpdates_get_failed env e hget] at h
      simp at h
    | none =>
      cases hread : env.ReadAll.2 with
      | some e =>
        rw [checkGithubUpdates_read_failed env e hget hread] at h
        simp at h
      | none =>
        rw [checkGithubUpdates_decoded env hget hread] at h
        simp only [Except.ok.injEq] at h
        exact ⟨rfl, rfl, h⟩

theorem checkGithubUpdates_propagates_errors_witness :
    (checkGithubUpdates decodeFailEnv).result =
        .ok (githubResponse.zero, some (errors.New (go "unexpected end of JSON input"))) ∧
      (sampleEnv.httpGet = none ∧ sampleEnv.ReadAll.2 = none ∧
        sampleEnv.jsonUnmarshal sampleEnv.ReadAll.1 githubResponse.zero
          = ({ githubResponse.zero with TagName := go "v1.2.0" }, none)) :=
  ⟨(checkGithubUpdates_propagates_errors decodeFailEnv).2.2.1 rfl rfl,
    (checkGithubUpdates_propagates_errors sampleEnv).2.2.2
      { githubResponse.zero with TagName := go "v1.2.0" } rfl⟩

/-! ## The loops -/

theorem stdoutText_append (xs ys : List Event) :
    stdoutText (xs ++ ys) = stdoutText xs ++ stdoutText ys := by
  induction xs with
  | nil => rfl
  | cons x xs ih => cases x <;> simp [stdoutText, ih]

theorem printEnvs_result (envs : List (GoString × GoString)) :
    (printEnvs envs).result = .ok () := by
  induction envs with
  | nil => rfl
  | cons p rest ih =>
    obtain ⟨k, e⟩ := p
    simp [printEnvs, ih]

theorem printEnvs_trace (envs : List (GoString × GoString)) :
    (printEnvs envs).trace =
      envs.map (fun p => Event.stdout (p.1 ++ go "=" ++ p.2 ++ go "\n")) := by
  induction envs with
  | nil => rfl
  | cons p rest ih =>
    obtain ⟨k, e⟩ := p
    simp [printEnvs, ih]

theorem stdoutText_map_stdout {α : Type} (f : α → GoString) (xs : List α) :
    stdoutText (xs.map (fun x => Event.stdout (f x))) = (xs.map f).flatten := by
  induction xs with
  | nil => rfl
  | cons x rest ih => simp [stdoutText, ih]

theorem loop_result (env : Env) (services : List Ref) :
    (RunOnce.loop env services).result = .ok () := by
  induction services with
  | nil => rfl
  | cons out rest ih => simp [RunOnce.loop, ih]

theorem loop_trace (env : Env) (services : List Ref) :
    (RunOnce.loop env services).trace =
      (services.map (serviceEvents env)).flatten := by
  induction services with
  | nil => rfl
  | cons out rest ih => simp [RunOnce.loop, ih, serviceEvents]

theorem RunOnce_run (env : Env) :
    RunOnce env = ⟨setupEvents env ++ (env.Services.map (serviceEvents env)).flatten, .ok ()⟩ := by
  rw [run_ext_iff]
  cases h1 : env.LoadConfigFile.2 <;> cases h2 : env.Connect <;> cases h3 : env.SelectCore.2 <;>
    cases h4 : env.SelectAllServices <;>
    simp [RunOnce, setupEvents, h1, h2, h3, h4, run_trace_bind, run_result_bind, loop_trace,
      loop_result]

/-! ## The other cases -/

theorem caseVersion_result (env : Env) :
    (catchCLI.caseVersion env).result = .ok (.ret (some endError)) := by
  by_cases h : env.COMMIT = go "" <;> simp [catchCLI.caseVersion, h, endError]

theorem caseAssets_run (env : Env) (dir : GoString) :
    catchCLI.caseAssets env dir =
      ⟨[.CreateAllAssets dir],
        .ok (.ret (some (match env.CreateAllAssets with
          | some e => e
          | none => endError)))⟩ := by
  rw [run_ext_iff]
  cases h : env.CreateAllAssets <;> simp [catchCLI.caseAssets, h, endError]

theorem caseSass_run (env : Env) (dir : GoString) :
    catchCLI.caseSass env dir =
      ⟨[.CompileSASS dir],
        .ok (.ret (some (match env.CompileSASS with
          | some e => e
          | none => endError)))⟩ := by
  rw [run_ext_iff]
  cases h : env.CompileSASS <;> simp [catchCLI.caseSass, h, endError]

theorem caseExport_load_failed (env : Env) (dir : GoString) (e : GoError)
    (h : env.LoadConfigFile.2 = some e) :
    catchCLI.caseExport env dir =
      ⟨[.stdout (go "Statup v" ++ env.VERSION ++ go " Exporting Static 'index.html' page...\n"),
          .LoadConfigFile dir, .Log 4 (go "config.yml file not found")],
        .ok (.ret (some e))⟩ := by
  rw [run_ext_iff]
  simp [catchCLI.caseExport, h]

theorem caseExport_save_failed (env : Env) (dir : GoString) (e : GoError)
    (h : env.LoadConfigFile.2 = none)
    (hs : env.SaveFile (go "./index.html") env.ExportIndexHTML = some e) :
    catchCLI.caseExport env dir =
      ⟨[.stdout (go "Statup v" ++ env.VERSION ++ go " Exporting Static 'index.html' page...\n"),
          .LoadConfigFile dir, .ExportIndexHTML,
          .SaveFile (go "./index.html") env.ExportIndexHTML, .LogErr 4 e],
        .ok (.ret (some e))⟩ := by
  rw [run_ext_iff]
  simp [catchCLI.caseExport, h, hs]

theorem caseExport_saved (env : Env) (dir : GoString) (h : env.LoadConfigFile.2 = none)
    (hs : env.SaveFile (go "./index.html") env.ExportIndexHTML = none) :
    catchCLI.caseExport env dir =
      ⟨[.stdout (go "Statup v" ++ env.VERSION ++ go " Exporting Static 'index.html' page...\n"),
          .LoadConfigFile dir, .ExportIndexHTML,
          .SaveFile (go "./index.html") env.ExportIndexHTML,
          .Log 1 (go "Exported Statup index page: 'index.html'")],
        .ok .endOfSwitch⟩ := by
  rw [run_ext_iff]
  simp [catchCLI.caseExport, h, hs]

theorem caseHelp_result (env : Env) :
    (catchCLI.caseHelp env).result = .ok (.ret (some endError)) := rfl

theorem caseRun_result (env : Env) :
    (catchCLI.caseRun env).result = .ok (.ret (some endError)) := by
  simp [catchCLI.caseRun, run_result_bind, RunOnce_run, endError]

theorem caseTest_run (sub : GoString) (rest : List GoString) :
    catchCLI.caseTest (go "test" :: sub :: rest) =
      ⟨if sub = go "plugins" then [.LoadPlugins] else [], .ok (.ret (some endError))⟩ := by
  rw [run_ext_iff]
  by_cases h : sub = go "plugins" <;>
    simp [catchCLI.caseTest, h, endError, run_trace_bind, run_result_bind]

theorem caseTest_no_sub :
    catchCLI.caseTest [go "test"] = ⟨[], .error (.indexOutOfRange 1 1)⟩ := rfl

theorem caseEnv_read_failed (env : Env) (e : GoError) (h : env.godotenvRead.2 = some e) :
    catchCLI.caseEnv env =
      ⟨[.stdout (go "Statup Environment Variable" ++ go "\n"), .godotenvRead (go ".env"),
          .Log 4 (go "No .env file found in current directory.")],
        .ok (.ret (some e))⟩ := by
  rw [run_ext_iff]
  simp [catchCLI.caseEnv, h]

theorem caseEnv_read (env : Env) (h : env.godotenvRead.2 = none) :
    catchCLI.caseEnv env =
      ⟨[.stdout (go "Statup Environment Variable" ++ go "\n"), .godotenvRead (go ".env")]
          ++ env.godotenvRead.1.map (fun p => Event.stdout (p.1 ++ go "=" ++ p.2 ++ go "\n")),
        .ok .endOfSwitch⟩ := by
  rw [run_ext_iff]
  simp [catchCLI.caseEnv, h, run_trace_bind, run_result_bind, printEnvs_trace,
    printEnvs_result]

/-! ## `assets`, `sass`, `export`, `env` -/

/-- C5: for `assets`, `sass`, `export` and `env`, `catchCLI` returns the error of
the first step that failed (asset dump; style compile; configuration load, then
file write; dotenv read), unchanged, and the handled-and-stop result when no
step failed; the result is never nil. -/
theorem failing_step_error_is_returned (env : Env) (rest : List GoString) :
    (catchCLI env (go "assets" :: rest)).result =
        .ok (some (match env.CreateAllAssets with
          | some e => e
          | none => endError)) ∧
      (catchCLI env (go "sass" :: rest)).result =
        .ok (some (match env.CompileSASS with
          | some e => e
          | none => endError)) ∧
      (catchCLI env (go "export" :: rest)).result =
        .ok (some (match env.LoadConfigFile.2 with
          | some e => e
          | none =>
            match env.SaveFile (go "./index.html") env.ExportIndexHTML with
            | some e => e
            | none => endError)) ∧
      (catchCLI env (go "env" :: rest)).result =
        .ok (some (match env.godotenvRead.2 with
          | some e => e
          | none => endError)) := by
  refine ⟨?_, ?_, ?_, ?_⟩
  · rw [catchCLI_cons, switch_assets, caseAssets_run]
    rfl
  · rw [catchCLI_cons, switch_sass, caseSass_run]
    rfl
  · rw [catchCLI_cons, switch_export]
    cases h : env.LoadConfigFile.2 with
    | some e =>
      rw [caseExport_load_failed env _ e h]
      rfl
    | none =>
      cases hs : env.SaveFile (go "./index.html") env.ExportIndexHTML with
      | some e =>
        rw [caseExport_save_failed env _ e h hs]
        rfl
      | none =>
        rw [caseExport_saved env _ h hs]
        rfl
  · rw [catchCLI_cons, switch_env]
    cases h : env.godotenvRead.2 with
    | some e =>
      rw [caseEnv_read_failed env e h]
      rfl
    | none =>
      rw [caseEnv_read env h]
      rfl

/-- C6: for `export`, when the configuration load succeeds the renderer is
called and exactly one file write is made, to `./index.html`, with the bytes of
the string the renderer returned; when the load fails there is no file write
and the renderer is not called. -/
theorem export_writes_rendered_index (env : Env) (rest : List GoString) :
    (env.LoadConfigFile.2 = none →
      (catchCLI env (go "export" :: rest)).trace.filter isSaveFile =
          [.SaveFile (go "./index.html") env.ExportIndexHTML] ∧
        Event.ExportIndexHTML ∈ (catchCLI env (go "export" :: rest)).trace) ∧
    (env.LoadConfigFile.2 ≠ none →
      (catchCLI env (go "export" :: rest)).trace.filter isSaveFile = [] ∧
        Event.ExportIndexHTML ∉ (catchCLI env (go "export" :: rest)).trace) := by
  rw [catchCLI_cons, switch_export]
  constructor
  · intro h
    cases hs : env.SaveFile (go "./index.html") env.ExportIndexHTML with
    | some e =>
      rw [caseExport_save_failed env _ e h hs]
      simp [bootstrap, isSaveFile]
    | none =>
      rw [caseExport_saved env _ h hs]
      simp [bootstrap, isSaveFile]
  · intro h
    cases hl : env.LoadConfigFile.2 with
    | none => exact absurd hl h
    | some e =>
      rw [caseExport_load_failed env _ e hl]
      simp [bootstrap, isSaveFile]

theorem export_writes_rendered_index_witness :
    sampleEnv.LoadConfigFile.2 = none ∧
      (catchCLI sampleEnv [go "export"]).trace.filter isSaveFile =
        [.SaveFile (go "./index.html") (go "<html></html>")] :=
  ⟨rfl, ((export_writes_rendered_index sampleEnv []).1 rfl).1⟩

/-- C7, at a concrete input: with a dotenv file holding only `A=1`, the `env`
command prints the heading line and then `A=1`, which is not `A=1` alone. -/
theorem env_prints_heading_first :
    dotenvEnv.godotenvRead = ([(go "A", go "1")], none) ∧
      stdoutText (catchCLI dotenvEnv [go "env"]).trace
        = go "Statup Environment Variable\nA=1\n" ∧
      stdoutText (catchCLI dotenvEnv [go "env"]).trace ≠ go "A=1\n" ∧
      stdoutText (catchCLI dotenvEnv [go "env"]).trace ≠ go "A=1" := by
  refine ⟨rfl, by decide, by decide, by decide⟩

/-- C7, amended: for `env` with a readable dotenv file, `catchCLI` prints the
line `Statup Environment Variable` and then one line `KEY=VALUE` for each pair
read from the file, in the order the map yields them, and nothing else. -/
theorem env_prints_heading_then_pairs (env : Env) (rest : List GoString)
    (h : env.godotenvRead.2 = none) :
    stdoutText (catchCLI env (go "env" :: rest)).trace =
      go "Statup Environment Variable\n"
        ++ (env.godotenvRead.1.map (fun p => p.1 ++ go "=" ++ p.2 ++ go "\n")).flatten := by
  rw [catchCLI_cons, switch_env, caseEnv_read env h]
  simp only [stdoutText_append, stdoutText_map_stdout]
  rfl

theorem env_prints_heading_then_pairs_witness :
    dotenvEnv.godotenvRead.2 = none ∧
      stdoutText (catchCLI dotenvEnv [go "env"]).trace =
        go "Statup Environment Variable\n"
          ++ ([(go "A", go "1")].map (fun p => p.1 ++ go "=" ++ p.2 ++ go "\n")).flatten :=
  ⟨rfl, env_prints_heading_then_pairs dotenvEnv [] rfl⟩

/-! ## `version`, `help`, `run`, `test` -/

/-- C8: `version`, `help`, `run`, and `test` followed by any sub-token, always
return the handled-and-stop result, whatever the environment; the plugin
self-test is called if and only if the sub-token is `plugins`. -/
theorem handled_commands_always_stop (env : Env) (sub : GoString) (rest : List GoString) :
    (catchCLI env (go "version" :: rest)).result = .ok (some endError) ∧
      (catchCLI env (go "help" :: rest)).result = .ok (some endError) ∧
      (catchCLI env (go "run" :: rest)).result = .ok (some endError) ∧
      (catchCLI env (go "test" :: sub :: rest)).result = .ok (some endError) ∧
      (Event.LoadPlugins ∈ (catchCLI env (go "test" :: sub :: rest)).trace
        ↔ sub = go "plugins") := by
  refine ⟨?_, ?_, ?_, ?_, ?_⟩
  · rw [catchCLI_cons, switch_version, caseVersion_result]
    rfl
  · rw [catchCLI_cons, switch_help, caseHelp_result]
    rfl
  · rw [catchCLI_cons, switch_run, caseRun_result]
    rfl
  · rw [catchCLI_cons, switch_test, caseTest_run]
    rfl
  · rw [catchCLI_cons, switch_test, caseTest_run]
    by_cases h : sub = go "plugins" <;> simp [h, bootstrap]

/-! ## `RunOnce` -/

theorem filter_isCheck_services (env : Env) (services : List Ref) :
    ((services.map (serviceEvents env)).flatten).filter isCheck
      = services.map (fun out => Event.Check out true) := by
  induction services with
  | nil => rfl
  | cons out rest ih => simp [serviceEvents, isCheck, ih]

theorem filter_isCheck_setup (env : Env) : (setupEvents env).filter isCheck = [] := by
  cases h1 : env.LoadConfigFile.2 <;> cases h2 : env.Connect <;> cases h3 : env.SelectCore.2 <;>
    cases h4 : env.SelectAllServices <;> simp [setupEvents, h1, h2, h3, h4, isCheck]

/-- C9: `RunOnce` completes whatever its four setup steps return; it calls
them all, in the order configuration load, storage connect, core selection,
service load, then runs the service loop: for each service held by the core, in
order, one selection, one check and one printed line, whose latency field is
the stored latency times 1000; with no service the loop adds nothing. -/
theorem RunOnce_is_fail_soft (env : Env) :
    (RunOnce env).result = .ok () ∧
      (RunOnce env).trace
        = setupEvents env ++ (env.Services.map (serviceEvents env)).flatten ∧
      (setupEvents env).filter isSetupCall =
        [.LoadConfigFile env.Directory, .Connect env.LoadConfigFile.1 false env.Directory,
          .SelectCore, .SelectAllServices env.SelectCore.1 true] ∧
      (RunOnce env).trace.filter isCheck = env.Services.map (fun out => Event.Check out true) ∧
      (∀ out, serviceEvents env out =
        [.Select out, .Check out true,
          .stdout (go "    Service " ++ (env.Select out).Name ++ go " | URL: "
            ++ (env.Select out).Domain ++ go " | Latency: "
            ++ env.fmtFloat0 ((env.Select out).Latency * 1000) ++ go "ms | Online: "
            ++ fmtBool (env.Select out).Online ++ go "\n")]) ∧
      (env.Services = [] → (RunOnce env).trace = setupEvents env) := by
  rw [RunOnce_run]
  refine ⟨rfl, rfl, ?_, ?_, fun _ => rfl, ?_⟩
  · cases h1 : env.LoadConfigFile.2 <;> cases h2 : env.Connect <;>
      cases h3 : env.SelectCore.2 <;> cases h4 : env.SelectAllServices <;>
      simp [setupEvents, h1, h2, h3, h4, isSetupCall]
  · simp only [List.filter_append, filter_isCheck_setup, filter_isCheck_services,
      List.nil_append]
  · intro h
    simp [h]

theorem RunOnce_is_fail_soft_witness :
    sampleEnv.Services = [] ∧ (RunOnce sampleEnv).trace = setupEvents sampleEnv :=
  ⟨rfl, (RunOnce_is_fail_soft sampleEnv).2.2.2.2.2 rfl⟩

/-! ## Index and slice expressions -/

theorem catchCLI_returns_of_switch (env : Env) (arg0 : GoString) (rest : List GoString)
    (h : ∃ f, (catchCLI.switch env env.Directory (arg0 :: rest) arg0).result = .ok f) :
    ∃ r, (catchCLI env (arg0 :: rest)).result = .ok r := by
  obtain ⟨f, hf⟩ := h
  rw [catchCLI_cons, hf]
  cases f with
  | ret err => exact ⟨err, rfl⟩
  | endOfSwitch => exact ⟨some endError, rfl⟩

theorem caseExport_returns (env : Env) (dir : GoString) :
    ∃ f, (catchCLI.caseExport env dir).result = .ok f := by
  cases h : env.LoadConfigFile.2 with
  | some e => exact ⟨_, by rw [caseExport_load_failed env dir e h]⟩
  | none =>
    cases hs : env.SaveFile (go "./index.html") env.ExportIndexHTML with
    | some e => exact ⟨_, by rw [caseExport_save_failed env dir e h hs]⟩
    | none => exact ⟨_, by rw [caseExport_saved env dir h hs]⟩

theorem caseEnv_returns (env : Env) : ∃ f, (catchCLI.caseEnv env).result = .ok f := by
  cases h : env.godotenvRead.2 with
  | some e => exact ⟨_, by rw [caseEnv_read_failed env e h]⟩
  | none => exact ⟨_, by rw [caseEnv_read env h]⟩

theorem caseUpdate_returns (env : Env)
    (h : ¬ (env.httpGet = none ∧ env.ReadAll.2 = none ∧
      (env.jsonUnmarshal env.ReadAll.1 githubResponse.zero).2 = none ∧
      (env.jsonUnmarshal env.ReadAll.1 githubResponse.zero).1.TagName = [])) :
    ∃ f, (catchCLI.caseUpdate env).result = .ok f := by
  cases hget : env.httpGet with
  | some e =>
    exact ⟨_, by
      rw [caseUpdate_fetch_failed env _ _ e (checkGithubUpdates_get_failed env e hget)]⟩
  | none =>
    cases hread : env.ReadAll.2 with
    | some e =>
      exact ⟨_, by
        rw [caseUpdate_fetch_failed env _ _ e (checkGithubUpdates_read_failed env e hget hread)]⟩
    | none =>
      have hf := checkGithubUpdates_decoded env hget hread
      cases hjson : env.jsonUnmarshal env.ReadAll.1 githubResponse.zero with
      | mk r err =>
        rw [hjson] at hf h
        cases err with
        | some e => exact ⟨_, by rw [caseUpdate_fetch_failed env _ r e hf]⟩
        | none =>
          cases ht : r.TagName with
          | nil => exact absurd ⟨hget, hread, rfl, ht⟩ h
          | cons c s => exact ⟨_, by rw [caseUpdate_tag env _ r c s hf ht]⟩

/-- C10: `catchCLI` panics with an out-of-range error on the empty argument
vector (`args[0]`), on `["test"]` (`args[1]`), and on `update` when the release
decodes with an empty tag name (`TagName[1:]`); on every other input, that is a
non-empty vector other than `["test"]` for which the `update` case does not
meet a decoded release with an empty tag name, it returns a result. -/
theorem index_expressions_in_bounds (env : Env) :
    (catchCLI env []).result = .error (.indexOutOfRange 0 0) ∧
      (catchCLI env [go "test"]).result = .error (.indexOutOfRange 1 1) ∧
      (∀ rest, env.httpGet = none → env.ReadAll.2 = none →
        (env.jsonUnmarshal env.ReadAll.1 githubResponse.zero).2 = none →
        (env.jsonUnmarshal env.ReadAll.1 githubResponse.zero).1.TagName = [] →
        (catchCLI env (go "update" :: rest)).result = .error (.sliceBoundsOutOfRange 1 0)) ∧
      (∀ args, args ≠ [] → args ≠ [go "test"] →
        ¬ (args.head? = some (go "update") ∧ env.httpGet = none ∧ env.ReadAll.2 = none ∧
          (env.jsonUnmarshal env.ReadAll.1 githubResponse.zero).2 = none ∧
          (env.jsonUnmarshal env.ReadAll.1 githubResponse.zero).1.TagName = []) →
        (catchCLI env args).result.isOk = true) := by
  refine ⟨rfl, ?_, ?_, ?_⟩
  · rw [catchCLI_cons, switch_test, caseTest_no_sub]
    rfl
  · intro rest hget hread hjson htag
    have hf := checkGithubUpdates_decoded env hget hread
    cases hr : env.jsonUnmarshal env.ReadAll.1 githubResponse.zero with
    | mk r err =>
      rw [hr] at hf hjson htag
      simp only at hjson htag
      subst hjson
      rw [update_of_fetch, caseUpdate_empty_tag env _ r hf htag]
      rfl
  · intro args hne htest hupd
    cases args with
    | nil => exact absurd rfl hne
    | cons arg0 rest =>
      suffices hs : ∃ r, (catchCLI env (arg0 :: rest)).result = .ok r by
        obtain ⟨r, hr⟩ := hs
        rw [hr]
        rfl
      apply catchCLI_returns_of_switch
      by_cases hmem : arg0 ∈ commandTokens
      · simp only [commandTokens, List.mem_cons, List.mem_singleton, List.not_mem_nil,
          or_false] at hmem
        rcases hmem with h | h | h | h | h | h | h | h | h | h <;> subst h
        · exact ⟨_, rfl⟩
        · rw [switch_version]
          exact ⟨_, caseVersion_result env⟩
        · rw [switch_assets, caseAssets_run]
          exact ⟨_, rfl⟩
        · rw [switch_sass, caseSass_run]
          exact ⟨_, rfl⟩
        · rw [switch_update]
          apply caseUpdate_returns
          intro hc
          exact hupd ⟨rfl, hc⟩
        · rw [switch_test]
          cases rest with
          | nil => exact absurd rfl htest
          | cons sub rest2 =>
            rw [caseTest_run]
            exact ⟨_, rfl⟩
        · rw [switch_export]
          exact caseExport_returns env _
        · rw [switch_help]
          exact ⟨_, caseHelp_result env⟩
        · rw [switch_run]
          exact ⟨_, caseRun_result env⟩
        · rw [switch_env]
          exact caseEnv_returns env
      · rw [switch_default env _ _ _ hmem]
        exact ⟨_, rfl⟩

theorem index_expressions_in_bounds_witness :
    (catchCLI emptyTagEnv [go "update"]).result = .error (.sliceBoundsOutOfRange 1 0) ∧
      (catchCLI sampleEnv [go "test", go "plugins"]).result.isOk = true :=
  ⟨(index_expressions_in_bounds emptyTagEnv).2.2.1 [] rfl rfl rfl rfl,
    (index_expressions_in_bounds sampleEnv).2.2.2 [go "test", go "plugins"] (by decide)
      (by decide) (fun h => absurd h.1 (by decide))⟩

end Statup
